import Mathlib

/-
  Verification of the APU controller (src/Core/APU.cpp) of a NES emulator.

  The controller file (APU.cpp) is embedded directly.  The channel classes
  (SquareChannel, TriangleChannel, NoiseChannel, DeltaModulationChannel) and
  the ApuFrameCounter are not part of the sources under study; the small part
  of their behaviour that the controller observes is modelled from the
  specification, and every call the controller makes into them is recorded in
  an event trace so that ordering properties can be stated.
-/

set_option autoImplicit false
set_option linter.unusedVariables false

/-- Console model, from `NesModel` in the source: NTSC or PAL. -/
inductive NesModel
  | NTSC
  | PAL
deriving DecidableEq, Repr

/-- Frame-counter event kinds, from `FrameType` in the source. -/
inductive FrameType
  | quarterFrame
  | halfFrame
deriving DecidableEq, Repr

/-- The five audio channels, from `AudioChannel` in the source.
`square1`/`square2` are the two pulse channels. -/
inductive ChannelId
  | square1
  | square2
  | triangle
  | noise
  | dmc
deriving DecidableEq, Repr

/-- Trace events: every call the APU controller makes into a channel, the
frame counter, the CPU IRQ lines, the blip accumulator or the audio device is
logged, in program order. -/
inductive ApuEvent
  | channelRun (c : ChannelId) (toCycle : Nat)
  | tickEnvelope (c : ChannelId)
  | tickLinearCounter (c : ChannelId)
  | tickLengthCounter (c : ChannelId)
  | tickSweep (c : ChannelId)
  | clearFrameIrq
  | clearDmcIrq
  | setEnabled (c : ChannelId) (flag : Bool)
  | endFrame (c : ChannelId)
  | blipEndFrame (cycle : Nat)
  | readSamples (maxSamples : Nat)
  | playBuffer
  | setClockRate (m : NesModel)
  | setChannelModel (c : ChannelId) (m : NesModel)
  | setFrameCounterModel (m : NesModel)
  | resetChannel (c : ChannelId) (soft : Bool)
  | resetFrameCounter (soft : Bool)
deriving DecidableEq, Repr

/-- The channel an event acts on, if any (used to state that frame-counter
events never touch the DMC). -/
def ApuEvent.channelOf : ApuEvent → Option ChannelId
  | .channelRun c _ => some c
  | .tickEnvelope c => some c
  | .tickLinearCounter c => some c
  | .tickLengthCounter c => some c
  | .tickSweep c => some c
  | .setEnabled c _ => some c
  | .endFrame c => some c
  | .setChannelModel c _ => some c
  | .resetChannel c _ => some c
  | _ => none

/-- Modelled from the spec: the state of a length-counter channel (pulse,
triangle, noise) that the controller observes.  `lengthCounter` backs
`GetStatus` ("length counter > 0"); `reloadPending` backs the static
`ApuLengthCounter::NeedToRun` ("a pending decrement scheduled by a write
earlier this cycle window"); `haltFlag` gates half-frame decrements;
`runUntil` records how far the channel has been advanced. -/
structure LengthChannelState where
  enabled : Bool
  lengthCounter : Nat
  haltFlag : Bool
  reloadPending : Bool
  runUntil : Nat
deriving DecidableEq, Repr

/-- Modelled from the spec: `GetStatus` of a length-counter channel is
"length counter > 0". -/
def LengthChannelState.getStatus (c : LengthChannelState) : Bool :=
  c.lengthCounter != 0

/-- Modelled from the spec: `SetEnabled` sets the enabled flag; disabling a
channel forces its length counter to 0. -/
def LengthChannelState.setEnabled (flag : Bool) (c : LengthChannelState) :
    LengthChannelState :=
  if flag then { c with enabled := true }
  else { c with enabled := false, lengthCounter := 0 }

/-- Modelled from the spec: a half-frame tick decrements the length counter
when the halt flag is clear; the counter saturates at 0. -/
def LengthChannelState.tickLength (c : LengthChannelState) : LengthChannelState :=
  if !c.haltFlag && c.lengthCounter != 0 then
    { c with lengthCounter := c.lengthCounter - 1 }
  else c

/-- Modelled from the spec: the DMC state the controller observes.
`bytesRemaining` backs `GetStatus` ("DMC has bytes remaining");
`irqEnabled`, `loopFlag`, `bitsRemaining` and `ratePeriod` back
`IrqPending`; `sampleLength` is reloaded into `bytesRemaining` on a restart. -/
structure DmcState where
  enabled : Bool
  bytesRemaining : Nat
  bitsRemaining : Nat
  sampleLength : Nat
  ratePeriod : Nat
  irqEnabled : Bool
  loopFlag : Bool
  runUntil : Nat
deriving DecidableEq, Repr

/-- Modelled from the spec: `GetStatus` of the DMC is "has bytes remaining". -/
def DmcState.getStatus (d : DmcState) : Bool :=
  d.bytesRemaining != 0

/-- Modelled from the spec: the DMC IRQ fires when the last byte of a
non-looping sample with IRQs enabled is exhausted; it is pending within a
budget when the cycles needed to shift out the remaining bits fit in it. -/
def DmcState.irqPending (d : DmcState) (within : Nat) : Bool :=
  d.irqEnabled && !d.loopFlag && d.bytesRemaining != 0 &&
    decide ((d.bitsRemaining + 8 * (d.bytesRemaining - 1)) * d.ratePeriod ≤ within)

/-- Modelled from the spec: enabling the DMC when `bytes_remaining == 0`
restarts the sample (`bytes_remaining = sample_length`); disabling it zeroes
`bytes_remaining`. -/
def DmcState.setEnabled (flag : Bool) (d : DmcState) : DmcState :=
  if flag then
    if d.bytesRemaining = 0 then
      { d with enabled := true, bytesRemaining := d.sampleLength }
    else { d with enabled := true }
  else { d with enabled := false, bytesRemaining := 0 }

/-- Modelled from the spec: the frame-counter state the controller observes.
`cyclesUntilNextEvent` is the distance to the next scheduled event;
`stepIndex` is the position in the 4-step or 5-step schedule;
`irqInhibit` suppresses the frame IRQ. -/
structure ApuFrameCounter where
  nesModel : NesModel
  fiveStepMode : Bool
  irqInhibit : Bool
  stepIndex : Nat
  cyclesUntilNextEvent : Nat
deriving DecidableEq, Repr

/-- Modelled from the spec: distances between consecutive frame-counter
events (NTSC event cycles 7457, 14913, 22371, 29829 for the 4-step mode and
additionally 37281 for the 5-step mode; the spec gives no PAL numbers, and no
claim depends on the values). -/
def fcStepDeltas (fiveStep : Bool) : List Nat :=
  if fiveStep then [7457, 7456, 7458, 7458, 7452] else [7457, 7456, 7458, 7458]

/-- Modelled from the spec: the callback kind fired at each schedule step
(the 5-step mode's fourth event is a nop). -/
def fcEventKind (fiveStep : Bool) (step : Nat) : Option FrameType :=
  if fiveStep then
    match step with
    | 0 => some FrameType.quarterFrame
    | 1 => some FrameType.halfFrame
    | 2 => some FrameType.quarterFrame
    | 3 => none
    | _ => some FrameType.halfFrame
  else
    match step with
    | 0 => some FrameType.quarterFrame
    | 1 => some FrameType.halfFrame
    | 2 => some FrameType.quarterFrame
    | _ => some FrameType.halfFrame

/-- Modelled from the spec: `irq_pending(within_cycles)` is true when the
IRQ event (the final 4-step event) falls within the budget and IRQ-inhibit is
clear. -/
def ApuFrameCounter.irqPending (fc : ApuFrameCounter) (within : Nat) : Bool :=
  if fc.fiveStepMode || fc.irqInhibit then false
  else
    decide (fc.cyclesUntilNextEvent +
      ((fcStepDeltas false).drop (fc.stepIndex + 1)).sum ≤ within)

/-- The full APU controller state: the cycle counters and model of APU.cpp,
the observable fragment of each owned child, the two CPU IRQ source latches,
whether an audio device is attached, and the call trace. -/
structure ApuState where
  nesModel : NesModel
  currentCycle : Nat
  previousCycle : Nat
  square1 : LengthChannelState
  square2 : LengthChannelState
  triangle : LengthChannelState
  noise : LengthChannelState
  dmc : DmcState
  frameCounter : ApuFrameCounter
  frameIrq : Bool
  dmcIrq : Bool
  audioDevice : Bool
  trace : List ApuEvent
deriving DecidableEq, Repr

/-- Append one event to the trace. -/
def logEvent (e : ApuEvent) (s : ApuState) : ApuState :=
  { s with trace := s.trace ++ [e] }

/-- `SampleRate` from the spec's constants section: 48000 Hz. -/
def SampleRate : Nat := 48000

/-- `SamplesPerFrame = SampleRate / 60` from the spec's constants section. -/
def SamplesPerFrame : Nat := SampleRate / 60

namespace APU

/-- `APU::FrameCounterTick` (APU.cpp lines 64-82): every event clocks the
envelopes of both squares and the noise and the triangle's linear counter; a
half-frame event additionally clocks the four length counters and both
sweeps. -/
def FrameCounterTick (t : FrameType) (s : ApuState) : ApuState :=
  let s := logEvent (ApuEvent.tickEnvelope ChannelId.square1) s
  let s := logEvent (ApuEvent.tickEnvelope ChannelId.square2) s
  let s := logEvent (ApuEvent.tickLinearCounter ChannelId.triangle) s
  let s := logEvent (ApuEvent.tickEnvelope ChannelId.noise) s
  if t = FrameType.halfFrame then
    let s := logEvent (ApuEvent.tickLengthCounter ChannelId.square1) s
    let s := { s with square1 := s.square1.tickLength }
    let s := logEvent (ApuEvent.tickLengthCounter ChannelId.square2) s
    let s := { s with square2 := s.square2.tickLength }
    let s := logEvent (ApuEvent.tickLengthCounter ChannelId.triangle) s
    let s := { s with triangle := s.triangle.tickLength }
    let s := logEvent (ApuEvent.tickLengthCounter ChannelId.noise) s
    let s := { s with noise := s.noise.tickLength }
    let s := logEvent (ApuEvent.tickSweep ChannelId.square1) s
    let s := logEvent (ApuEvent.tickSweep ChannelId.square2) s
    s
  else s

end APU

/-- Fire the frame-counter callback for an event kind (`none` is the 5-step
nop event). -/
def applyTick (k : Option FrameType) (s : ApuState) : ApuState :=
  match k with
  | some t => APU.FrameCounterTick t s
  | none => s

/-- Latch the frame-counter IRQ source when the condition holds. -/
def raiseFrameIrq (b : Bool) (s : ApuState) : ApuState :=
  if b then { s with frameIrq := true } else s

/-- Move the frame-counter schedule past the event it has just reached. -/
def fcNextSchedule (fc : ApuFrameCounter) : ApuFrameCounter :=
  let nextIndex := (fc.stepIndex + 1) % (fcStepDeltas fc.fiveStepMode).length
  { fc with stepIndex := nextIndex,
            cyclesUntilNextEvent := (fcStepDeltas fc.fiveStepMode).getD nextIndex 1 }

/-- Modelled from the spec: `ApuFrameCounter::Run` consumes part of the
budget it is handed: it advances to the next event boundary or by the whole
budget, whichever comes first, and returns the number of cycles advanced.
On reaching an event it fires the APU callback, and the final 4-step event
also raises the frame IRQ unless inhibited. -/
def fcRunOnce (s : ApuState) (budget : Nat) : Nat × ApuState :=
  if budget < s.frameCounter.cyclesUntilNextEvent then
    (budget,
      { s with frameCounter :=
          { s.frameCounter with cyclesUntilNextEvent :=
              s.frameCounter.cyclesUntilNextEvent - budget } })
  else
    (s.frameCounter.cyclesUntilNextEvent,
      raiseFrameIrq
        (!s.frameCounter.fiveStepMode && s.frameCounter.stepIndex == 3 &&
          !s.frameCounter.irqInhibit)
        (applyTick (fcEventKind s.frameCounter.fiveStepMode s.frameCounter.stepIndex)
          { s with frameCounter := fcNextSchedule s.frameCounter }))

/-- Advance one channel to `toCycle`: the channel posts its pending deltas up
to that cycle (trace event) and records the new watermark. -/
def runChannel (c : ChannelId) (toCycle : Nat) (s : ApuState) : ApuState :=
  let s := logEvent (ApuEvent.channelRun c toCycle) s
  match c with
  | ChannelId.square1 => { s with square1 := { s.square1 with runUntil := toCycle } }
  | ChannelId.square2 => { s with square2 := { s.square2 with runUntil := toCycle } }
  | ChannelId.triangle => { s with triangle := { s.triangle with runUntil := toCycle } }
  | ChannelId.noise => { s with noise := { s.noise with runUntil := toCycle } }
  | ChannelId.dmc => { s with dmc := { s.dmc with runUntil := toCycle } }

namespace APU

/-- One iteration of the loop in `APU::Run` (APU.cpp lines 135-143): the
frame counter consumes part of the remaining cycles, `previousCycle` advances
by exactly that amount, and the channels are advanced to the new
`previousCycle` in the order square1, square2, noise, triangle, DMC. -/
def RunStep (s : ApuState) : ApuState :=
  let budget := s.currentCycle - s.previousCycle
  let r := fcRunOnce s budget
  let s₁ := { r.2 with previousCycle := r.2.previousCycle + r.1 }
  let s₂ := runChannel ChannelId.square1 s₁.previousCycle s₁
  let s₃ := runChannel ChannelId.square2 s₂.previousCycle s₂
  let s₄ := runChannel ChannelId.noise s₃.previousCycle s₃
  let s₅ := runChannel ChannelId.triangle s₄.previousCycle s₄
  runChannel ChannelId.dmc s₅.previousCycle s₅

/-- The loop of `APU::Run`, with explicit fuel: while
`previousCycle < currentCycle`, perform one `RunStep`.  Since each step
advances `previousCycle` by at least one cycle (when the frame-counter state
is well formed), fuel `currentCycle - previousCycle` always suffices. -/
def RunLoop : Nat → ApuState → ApuState
  | 0, s => s
  | Nat.succ fuel, s =>
    if s.previousCycle < s.currentCycle then RunLoop fuel (RunStep s) else s

/-- `APU::Run` (APU.cpp lines 126-144). -/
def Run (s : ApuState) : ApuState :=
  RunLoop (s.currentCycle - s.previousCycle) s

end APU

/-- The status byte composed by the $4015 read (APU.cpp lines 89-96), with
one Bool per source: square1, square2, triangle, noise, DMC, frame IRQ,
DMC IRQ. -/
def statusByte (b0 b1 b2 b3 b4 b6 b7 : Bool) : Nat :=
  let status : Nat := 0
  let status := status ||| (if b0 then 0x01 else 0x00)
  let status := status ||| (if b1 then 0x02 else 0x00)
  let status := status ||| (if b2 then 0x04 else 0x00)
  let status := status ||| (if b3 then 0x08 else 0x00)
  let status := status ||| (if b4 then 0x10 else 0x00)
  let status := status ||| (if b6 then 0x40 else 0x00)
  status ||| (if b7 then 0x80 else 0x00)

namespace APU

/-- `APU::ReadRAM` (APU.cpp lines 84-102): the $4015 read.  Runs the APU,
composes the status byte, and clears the frame-counter IRQ source (only).
The address argument is kept from the source signature; only $4015 is
registered for this handler. -/
def ReadRAM (addr : Nat) (s : ApuState) : Nat × ApuState :=
  let s₁ := Run s
  let status := statusByte s₁.square1.getStatus s₁.square2.getStatus
      s₁.triangle.getStatus s₁.noise.getStatus s₁.dmc.getStatus
      s₁.frameIrq s₁.dmcIrq
  (status, logEvent ApuEvent.clearFrameIrq { s₁ with frameIrq := false })

/-- `APU::WriteRAM` (APU.cpp lines 104-118): the $4015 write.  Runs the APU,
clears the DMC IRQ source, then sets each channel's enabled flag from its
mask bit, in the order square1 (0x01), square2 (0x02), triangle (0x04),
noise (0x08), DMC (0x10). -/
def WriteRAM (addr : Nat) (value : Nat) (s : ApuState) : ApuState :=
  let s := Run s
  let s := logEvent ApuEvent.clearDmcIrq { s with dmcIrq := false }
  let b1 := (value &&& 0x01) == 0x01
  let s := logEvent (ApuEvent.setEnabled ChannelId.square1 b1)
      { s with square1 := s.square1.setEnabled b1 }
  let b2 := (value &&& 0x02) == 0x02
  let s := logEvent (ApuEvent.setEnabled ChannelId.square2 b2)
      { s with square2 := s.square2.setEnabled b2 }
  let b3 := (value &&& 0x04) == 0x04
  let s := logEvent (ApuEvent.setEnabled ChannelId.triangle b3)
      { s with triangle := s.triangle.setEnabled b3 }
  let b4 := (value &&& 0x08) == 0x08
  let s := logEvent (ApuEvent.setEnabled ChannelId.noise b4)
      { s with noise := s.noise.setEnabled b4 }
  let b5 := (value &&& 0x10) == 0x10
  logEvent (ApuEvent.setEnabled ChannelId.dmc b5)
    { s with dmc := s.dmc.setEnabled b5 }

/-- `APU::NeedToRun` (APU.cpp lines 151-164): any pending length-counter
work, or a frame-counter or DMC IRQ falling within
`currentCycle - previousCycle` cycles (a uint32 subtraction in the source,
hence the mod 2^32). -/
def NeedToRun (s : ApuState) (currentCycle : Nat) : Bool :=
  let lcPending := s.square1.reloadPending || s.square2.reloadPending ||
      s.triangle.reloadPending || s.noise.reloadPending
  if lcPending then true
  else
    let cyclesToRun := (currentCycle + 2 ^ 32 - s.previousCycle) % 2 ^ 32
    if s.frameCounter.irqPending cyclesToRun then true
    else if s.dmc.irqPending cyclesToRun then true
    else false

/-- `APU::SetNesModel` (APU.cpp lines 47-62): when the model changes or the
init is forced, drain pending work with `Run`, then set the model field, the
accumulator clock rate, every channel's model and the frame counter's model;
otherwise do nothing. -/
def SetNesModel (model : NesModel) (forceInit : Bool) (s : ApuState) : ApuState :=
  if s.nesModel != model || forceInit then
    let s := Run s
    let s := { s with nesModel := model }
    let s := logEvent (ApuEvent.setClockRate model) s
    let s := logEvent (ApuEvent.setChannelModel ChannelId.square1 model) s
    let s := logEvent (ApuEvent.setChannelModel ChannelId.square2 model) s
    let s := logEvent (ApuEvent.setChannelModel ChannelId.triangle model) s
    let s := logEvent (ApuEvent.setChannelModel ChannelId.noise model) s
    let s := logEvent (ApuEvent.setChannelModel ChannelId.dmc model) s
    logEvent (ApuEvent.setFrameCounterModel model)
      { s with frameCounter := { s.frameCounter with nesModel := model } }
  else s

/-- The frame-flush block of `APU::Exec` (APU.cpp lines 175-191): run to the
boundary, end-of-frame hook on every channel, finalize the accumulator at
the current cycle, read up to `SamplesPerFrame` samples and push them to the
audio device when one is attached, then rebase both cycle counters to 0. -/
def flushFrame (s : ApuState) : ApuState :=
  let s := Run s
  let s := logEvent (ApuEvent.endFrame ChannelId.square1) s
  let s := logEvent (ApuEvent.endFrame ChannelId.square2) s
  let s := logEvent (ApuEvent.endFrame ChannelId.triangle) s
  let s := logEvent (ApuEvent.endFrame ChannelId.noise) s
  let s := logEvent (ApuEvent.endFrame ChannelId.dmc) s
  let s := logEvent (ApuEvent.blipEndFrame s.currentCycle) s
  let s := logEvent (ApuEvent.readSamples SamplesPerFrame) s
  let s := if s.audioDevice then logEvent ApuEvent.playBuffer s else s
  { s with currentCycle := 0, previousCycle := 0 }

/-- `APU::Exec` (APU.cpp lines 171-195): bump `currentCycle`; at the frame
cycle limit (10000) flush the frame; otherwise run exactly when `NeedToRun`
says so. -/
def Exec (s : ApuState) : ApuState :=
  let s := { s with currentCycle := s.currentCycle + 1 }
  if s.currentCycle = 10000 then flushFrame s
  else if NeedToRun s s.currentCycle then Run s
  else s

end APU

/-- Modelled from the spec: resetting a length-counter channel clears all the
observable state (the soft flag is irrelevant to the modelled fields). -/
def LengthChannelState.reset (_soft : Bool) (_c : LengthChannelState) :
    LengthChannelState :=
  { enabled := false, lengthCounter := 0, haltFlag := false,
    reloadPending := false, runUntil := 0 }

/-- Modelled from the spec: resetting the DMC clears its playback state; the
power-on sample length is 1 ($4013 = 0 gives `(0 << 4) | 1`) and the rate
period is the first NTSC table entry (the claims do not depend on the value). -/
def DmcState.reset (_soft : Bool) (_d : DmcState) : DmcState :=
  { enabled := false, bytesRemaining := 0, bitsRemaining := 8,
    sampleLength := 1, ratePeriod := 428, irqEnabled := false,
    loopFlag := false, runUntil := 0 }

/-- Modelled from the spec: resetting the frame counter restores the 4-step
mode with IRQs enabled and the schedule at its first event. -/
def ApuFrameCounter.reset (_soft : Bool) (fc : ApuFrameCounter) : ApuFrameCounter :=
  { nesModel := fc.nesModel, fiveStepMode := false, irqInhibit := false,
    stepIndex := 0, cyclesUntilNextEvent := 7457 }

namespace APU

/-- `APU::Reset` (APU.cpp lines 204-214): zero both cycle counters and reset
every child, in the order square1, square2, triangle, noise, DMC, frame
counter; the pending IRQ sources are dropped with the children's state. -/
def Reset (soft : Bool) (s : ApuState) : ApuState :=
  let s := { s with currentCycle := 0, previousCycle := 0,
                    square1 := s.square1.reset soft,
                    square2 := s.square2.reset soft,
                    triangle := s.triangle.reset soft,
                    noise := s.noise.reset soft,
                    dmc := s.dmc.reset soft,
                    frameCounter := s.frameCounter.reset soft,
                    frameIrq := false, dmcIrq := false }
  let s := logEvent (ApuEvent.resetChannel ChannelId.square1 soft) s
  let s := logEvent (ApuEvent.resetChannel ChannelId.square2 soft) s
  let s := logEvent (ApuEvent.resetChannel ChannelId.triangle soft) s
  let s := logEvent (ApuEvent.resetChannel ChannelId.noise soft) s
  let s := logEvent (ApuEvent.resetChannel ChannelId.dmc soft) s
  logEvent (ApuEvent.resetFrameCounter soft) s

end APU

/-- The channel state produced by a power-on reset. -/
def initChannel : LengthChannelState :=
  { enabled := false, lengthCounter := 0, haltFlag := false,
    reloadPending := false, runUntil := 0 }

/-- The DMC state produced by a power-on reset. -/
def initDmc : DmcState :=
  { enabled := false, bytesRemaining := 0, bitsRemaining := 8,
    sampleLength := 1, ratePeriod := 428, irqEnabled := false,
    loopFlag := false, runUntil := 0 }

/-- The frame-counter state produced by a power-on reset. -/
def initFrameCounter : ApuFrameCounter :=
  { nesModel := NesModel.NTSC, fiveStepMode := false, irqInhibit := false,
    stepIndex := 0, cyclesUntilNextEvent := 7457 }

/-- The power-on state: the constructor ends with `Reset(false)`; the trace
starts empty and an audio device is attached. -/
def initState : ApuState :=
  { nesModel := NesModel.NTSC, currentCycle := 0, previousCycle := 0,
    square1 := initChannel, square2 := initChannel,
    triangle := initChannel, noise := initChannel,
    dmc := initDmc, frameCounter := initFrameCounter,
    frameIrq := false, dmcIrq := false, audioDevice := true, trace := [] }

/-- The events logged by one frame-counter callback: the quarter-frame work,
followed on a half-frame event by the length-counter and sweep work. -/
def tickEvents (t : FrameType) : List ApuEvent :=
  [ApuEvent.tickEnvelope ChannelId.square1, ApuEvent.tickEnvelope ChannelId.square2,
   ApuEvent.tickLinearCounter ChannelId.triangle, ApuEvent.tickEnvelope ChannelId.noise] ++
  (if t = FrameType.halfFrame then
    [ApuEvent.tickLengthCounter ChannelId.square1, ApuEvent.tickLengthCounter ChannelId.square2,
     ApuEvent.tickLengthCounter ChannelId.triangle, ApuEvent.tickLengthCounter ChannelId.noise,
     ApuEvent.tickSweep ChannelId.square1, ApuEvent.tickSweep ChannelId.square2]
   else [])

/-- A concrete state with pending cycles, used to evaluate the theorems on a
closed input. -/
def sampleState : ApuState :=
  { initState with currentCycle := 3 }

/-- The invariant of the APU controller state: the advanced watermark never
passes the current cycle, the current cycle stays below the frame cycle
limit, and the frame-counter schedule always has a strictly future event. -/
def ApuInv (s : ApuState) : Prop :=
  s.previousCycle ≤ s.currentCycle ∧ s.currentCycle < 10000 ∧
    1 ≤ s.frameCounter.cyclesUntilNextEvent

/-- States reachable from power-on by any sequence of APU operations. -/
inductive Reachable : ApuState → Prop
  | init : Reachable initState
  | exec {s : ApuState} : Reachable s → Reachable (APU.Exec s)
  | readReg {s : ApuState} (addr : Nat) : Reachable s →
      Reachable (APU.ReadRAM addr s).2
  | writeReg {s : ApuState} (addr value : Nat) : Reachable s →
      Reachable (APU.WriteRAM addr value s)
  | setModel {s : ApuState} (m : NesModel) (force : Bool) : Reachable s →
      Reachable (APU.SetNesModel m force s)
  | reset {s : ApuState} (soft : Bool) : Reachable s →
      Reachable (APU.Reset soft s)
  | run {s : ApuState} : Reachable s → Reachable (APU.Run s)

/-! ### Basic preservation lemmas -/

@[simp]
theorem logEvent_currentCycle (e : ApuEvent) (s : ApuState) :
    (logEvent e s).currentCycle = s.currentCycle := rfl

@[simp]
theorem logEvent_previousCycle (e : ApuEvent) (s : ApuState) :
    (logEvent e s).previousCycle = s.previousCycle := rfl

@[simp]
theorem logEvent_frameCounter (e : ApuEvent) (s : ApuState) :
    (logEvent e s).frameCounter = s.frameCounter := rfl

@[simp]
theorem logEvent_audioDevice (e : ApuEvent) (s : ApuState) :
    (logEvent e s).audioDevice = s.audioDevice := rfl

@[simp]
theorem logEvent_trace (e : ApuEvent) (s : ApuState) :
    (logEvent e s).trace = s.trace ++ [e] := rfl

@[simp]
theorem logEvent_nesModel (e : ApuEvent) (s : ApuState) :
    (logEvent e s).nesModel = s.nesModel := rfl

@[simp]
theorem logEvent_square1 (e : ApuEvent) (s : ApuState) :
    (logEvent e s).square1 = s.square1 := rfl

@[simp]
theorem logEvent_square2 (e : ApuEvent) (s : ApuState) :
    (logEvent e s).square2 = s.square2 := rfl

@[simp]
theorem logEvent_triangle (e : ApuEvent) (s : ApuState) :
    (logEvent e s).triangle = s.triangle := rfl

@[simp]
theorem logEvent_noise (e : ApuEvent) (s : ApuState) :
    (logEvent e s).noise = s.noise := rfl

@[simp]
theorem logEvent_dmc (e : ApuEvent) (s : ApuState) :
    (logEvent e s).dmc = s.dmc := rfl

@[simp]
theorem logEvent_frameIrq (e : ApuEvent) (s : ApuState) :
    (logEvent e s).frameIrq = s.frameIrq := rfl

@[simp]
theorem logEvent_dmcIrq (e : ApuEvent) (s : ApuState) :
    (logEvent e s).dmcIrq = s.dmcIrq := rfl

theorem FrameCounterTick_currentCycle (t : FrameType) (s : ApuState) :
    (APU.FrameCounterTick t s).currentCycle = s.currentCycle := by
  cases t <;> simp [APU.FrameCounterTick]

theorem FrameCounterTick_previousCycle (t : FrameType) (s : ApuState) :
    (APU.FrameCounterTick t s).previousCycle = s.previousCycle := by
  cases t <;> simp [APU.FrameCounterTick]

theorem FrameCounterTick_frameCounter (t : FrameType) (s : ApuState) :
    (APU.FrameCounterTick t s).frameCounter = s.frameCounter := by
  cases t <;> simp [APU.FrameCounterTick]

theorem FrameCounterTick_audioDevice (t : FrameType) (s : ApuState) :
    (APU.FrameCounterTick t s).audioDevice = s.audioDevice := by
  cases t <;> simp [APU.FrameCounterTick]

theorem FrameCounterTick_dmc (t : FrameType) (s : ApuState) :
    (APU.FrameCounterTick t s).dmc = s.dmc := by
  cases t <;> simp [APU.FrameCounterTick]

theorem fcStepDeltas_getD_pos (fiveStep : Bool) (i : Nat) :
    1 ≤ (fcStepDeltas fiveStep).getD i 1 := by
  cases fiveStep <;> simp only [fcStepDeltas] <;>
    rcases i with _ | _ | _ | _ | _ | i <;> simp [List.getD]

theorem applyTick_currentCycle (k : Option FrameType) (s : ApuState) :
    (applyTick k s).currentCycle = s.currentCycle := by
  cases k <;> simp [applyTick, FrameCounterTick_currentCycle]

theorem applyTick_previousCycle (k : Option FrameType) (s : ApuState) :
    (applyTick k s).previousCycle = s.previousCycle := by
  cases k <;> simp [applyTick, FrameCounterTick_previousCycle]

theorem applyTick_frameCounter (k : Option FrameType) (s : ApuState) :
    (applyTick k s).frameCounter = s.frameCounter := by
  cases k <;> simp [applyTick, FrameCounterTick_frameCounter]

theorem applyTick_audioDevice (k : Option FrameType) (s : ApuState) :
    (applyTick k s).audioDevice = s.audioDevice := by
  cases k <;> simp [applyTick, FrameCounterTick_audioDevice]

theorem raiseFrameIrq_currentCycle (b : Bool) (s : ApuState) :
    (raiseFrameIrq b s).currentCycle = s.currentCycle := by
  cases b <;> simp [raiseFrameIrq]

theorem raiseFrameIrq_previousCycle (b : Bool) (s : ApuState) :
    (raiseFrameIrq b s).previousCycle = s.previousCycle := by
  cases b <;> simp [raiseFrameIrq]

theorem raiseFrameIrq_frameCounter (b : Bool) (s : ApuState) :
    (raiseFrameIrq b s).frameCounter = s.frameCounter := by
  cases b <;> simp [raiseFrameIrq]

theorem raiseFrameIrq_audioDevice (b : Bool) (s : ApuState) :
    (raiseFrameIrq b s).audioDevice = s.audioDevice := by
  cases b <;> simp [raiseFrameIrq]

/-! ### Properties of the frame-counter run -/

theorem fcRunOnce_fst_le (s : ApuState) (budget : Nat) :
    (fcRunOnce s budget).1 ≤ budget := by
  unfold fcRunOnce
  split
  · exact Nat.le_refl budget
  · exact Nat.le_of_not_lt (by assumption)

theorem fcRunOnce_fst_pos (s : ApuState) (budget : Nat)
    (hwf : 1 ≤ s.frameCounter.cyclesUntilNextEvent) (hb : 1 ≤ budget) :
    1 ≤ (fcRunOnce s budget).1 := by
  unfold fcRunOnce
  split
  · exact hb
  · exact hwf

theorem fcRunOnce_currentCycle (s : ApuState) (budget : Nat) :
    (fcRunOnce s budget).2.currentCycle = s.currentCycle := by
  unfold fcRunOnce
  split
  · rfl
  · simp [raiseFrameIrq_currentCycle, applyTick_currentCycle]

theorem fcRunOnce_previousCycle (s : ApuState) (budget : Nat) :
    (fcRunOnce s budget).2.previousCycle = s.previousCycle := by
  unfold fcRunOnce
  split
  · rfl
  · simp [raiseFrameIrq_previousCycle, applyTick_previousCycle]

theorem fcRunOnce_audioDevice (s : ApuState) (budget : Nat) :
    (fcRunOnce s budget).2.audioDevice = s.audioDevice := by
  unfold fcRunOnce
  split
  · rfl
  · simp [raiseFrameIrq_audioDevice, applyTick_audioDevice]

theorem fcRunOnce_wf (s : ApuState) (budget : Nat)
    (hwf : 1 ≤ s.frameCounter.cyclesUntilNextEvent) :
    1 ≤ (fcRunOnce s budget).2.frameCounter.cyclesUntilNextEvent := by
  unfold fcRunOnce
  split
  · rename_i hlt
    simp only
    omega
  · rw [raiseFrameIrq_frameCounter, applyTick_frameCounter]
    simp only [fcNextSchedule]
    exact fcStepDeltas_getD_pos _ _

theorem runChannel_currentCycle (c : ChannelId) (toCycle : Nat) (s : ApuState) :
    (runChannel c toCycle s).currentCycle = s.currentCycle := by
  cases c <;> simp [runChannel]

theorem runChannel_previousCycle (c : ChannelId) (toCycle : Nat) (s : ApuState) :
    (runChannel c toCycle s).previousCycle = s.previousCycle := by
  cases c <;> simp [runChannel]

theorem runChannel_frameCounter (c : ChannelId) (toCycle : Nat) (s : ApuState) :
    (runChannel c toCycle s).frameCounter = s.frameCounter := by
  cases c <;> simp [runChannel]

theorem runChannel_audioDevice (c : ChannelId) (toCycle : Nat) (s : ApuState) :
    (runChannel c toCycle s).audioDevice = s.audioDevice := by
  cases c <;> simp [runChannel]

theorem runChannel_trace (c : ChannelId) (toCycle : Nat) (s : ApuState) :
    (runChannel c toCycle s).trace = s.trace ++ [ApuEvent.channelRun c toCycle] := by
  cases c <;> simp [runChannel]

/-! ### Properties of one iteration of the run loop -/

theorem RunStep_currentCycle (s : ApuState) :
    (APU.RunStep s).currentCycle = s.currentCycle := by
  simp only [APU.RunStep]
  simp [runChannel_currentCycle, fcRunOnce_currentCycle]

theorem RunStep_previousCycle (s : ApuState) :
    (APU.RunStep s).previousCycle =
      s.previousCycle + (fcRunOnce s (s.currentCycle - s.previousCycle)).1 := by
  simp only [APU.RunStep]
  simp [runChannel_previousCycle, fcRunOnce_previousCycle]

theorem RunStep_audioDevice (s : ApuState) :
    (APU.RunStep s).audioDevice = s.audioDevice := by
  simp only [APU.RunStep]
  simp [runChannel_audioDevice, fcRunOnce_audioDevice]

theorem RunStep_wf (s : ApuState)
    (hwf : 1 ≤ s.frameCounter.cyclesUntilNextEvent) :
    1 ≤ (APU.RunStep s).frameCounter.cyclesUntilNextEvent := by
  simp only [APU.RunStep]
  simp only [runChannel_frameCounter]
  exact fcRunOnce_wf s _ hwf

/-! ### Properties of the run loop and of `Run` -/

theorem RunLoop_currentCycle (fuel : Nat) (s : ApuState) :
    (APU.RunLoop fuel s).currentCycle = s.currentCycle := by
  induction fuel generalizing s with
  | zero => rfl
  | succ fuel ih =>
    simp only [APU.RunLoop]
    split
    · rw [ih, RunStep_currentCycle]
    · rfl

theorem RunLoop_audioDevice (fuel : Nat) (s : ApuState) :
    (APU.RunLoop fuel s).audioDevice = s.audioDevice := by
  induction fuel generalizing s with
  | zero => rfl
  | succ fuel ih =>
    simp only [APU.RunLoop]
    split
    · rw [ih, RunStep_audioDevice]
    · rfl

theorem RunLoop_wf (fuel : Nat) (s : ApuState)
    (hwf : 1 ≤ s.frameCounter.cyclesUntilNextEvent) :
    1 ≤ (APU.RunLoop fuel s).frameCounter.cyclesUntilNextEvent := by
  induction fuel generalizing s with
  | zero => exact hwf
  | succ fuel ih =>
    simp only [APU.RunLoop]
    split
    · exact ih _ (RunStep_wf s hwf)
    · exact hwf

theorem RunLoop_complete (fuel : Nat) (s : ApuState)
    (hwf : 1 ≤ s.frameCounter.cyclesUntilNextEvent)
    (hle : s.previousCycle ≤ s.currentCycle)
    (hfuel : s.currentCycle - s.previousCycle ≤ fuel) :
    (APU.RunLoop fuel s).previousCycle = (APU.RunLoop fuel s).currentCycle := by
  induction fuel generalizing s with
  | zero =>
    have : s.previousCycle = s.currentCycle := by omega
    simpa [APU.RunLoop] using this
  | succ fuel ih =>
    simp only [APU.RunLoop]
    split
    · rename_i hlt
      have hadvle := fcRunOnce_fst_le s (s.currentCycle - s.previousCycle)
      have hadvpos := fcRunOnce_fst_pos s (s.currentCycle - s.previousCycle) hwf
        (by omega)
      apply ih
      · exact RunStep_wf s hwf
      · rw [RunStep_previousCycle, RunStep_currentCycle]
        omega
      · rw [RunStep_previousCycle, RunStep_currentCycle]
        omega
    · omega

theorem Run_currentCycle (s : ApuState) :
    (APU.Run s).currentCycle = s.currentCycle :=
  RunLoop_currentCycle _ s

theorem Run_audioDevice (s : ApuState) :
    (APU.Run s).audioDevice = s.audioDevice :=
  RunLoop_audioDevice _ s

theorem Run_wf (s : ApuState)
    (hwf : 1 ≤ s.frameCounter.cyclesUntilNextEvent) :
    1 ≤ (APU.Run s).frameCounter.cyclesUntilNextEvent :=
  RunLoop_wf _ s hwf

theorem Run_complete (s : ApuState)
    (hwf : 1 ≤ s.frameCounter.cyclesUntilNextEvent)
    (hle : s.previousCycle ≤ s.currentCycle) :
    (APU.Run s).previousCycle = (APU.Run s).currentCycle :=
  RunLoop_complete _ s hwf hle (Nat.le_refl _)

/-! ### Register access and model-switch projections -/

theorem ReadRAM_snd_previousCycle (addr : Nat) (s : ApuState) :
    (APU.ReadRAM addr s).2.previousCycle = (APU.Run s).previousCycle := by
  simp [APU.ReadRAM]

theorem ReadRAM_snd_currentCycle (addr : Nat) (s : ApuState) :
    (APU.ReadRAM addr s).2.currentCycle = (APU.Run s).currentCycle := by
  simp [APU.ReadRAM]

theorem ReadRAM_snd_frameCounter (addr : Nat) (s : ApuState) :
    (APU.ReadRAM addr s).2.frameCounter = (APU.Run s).frameCounter := by
  simp [APU.ReadRAM]

theorem WriteRAM_previousCycle (addr value : Nat) (s : ApuState) :
    (APU.WriteRAM addr value s).previousCycle = (APU.Run s).previousCycle := by
  simp [APU.WriteRAM]

theorem WriteRAM_currentCycle (addr value : Nat) (s : ApuState) :
    (APU.WriteRAM addr value s).currentCycle = (APU.Run s).currentCycle := by
  simp [APU.WriteRAM]

theorem WriteRAM_frameCounter (addr value : Nat) (s : ApuState) :
    (APU.WriteRAM addr value s).frameCounter = (APU.Run s).frameCounter := by
  simp [APU.WriteRAM]

/-! ### Exec characterization -/

theorem flushFrame_currentCycle (s : ApuState) :
    (APU.flushFrame s).currentCycle = 0 := by
  simp only [APU.flushFrame]

theorem flushFrame_previousCycle (s : ApuState) :
    (APU.flushFrame s).previousCycle = 0 := by
  simp only [APU.flushFrame]

theorem flushFrame_frameCounter (s : ApuState) :
    (APU.flushFrame s).frameCounter = (APU.Run s).frameCounter := by
  simp only [APU.flushFrame]
  split <;> simp

theorem flushFrame_trace (s : ApuState) :
    (APU.flushFrame s).trace =
      (APU.Run s).trace ++
        ([ApuEvent.endFrame ChannelId.square1, ApuEvent.endFrame ChannelId.square2,
          ApuEvent.endFrame ChannelId.triangle, ApuEvent.endFrame ChannelId.noise,
          ApuEvent.endFrame ChannelId.dmc,
          ApuEvent.blipEndFrame (APU.Run s).currentCycle,
          ApuEvent.readSamples SamplesPerFrame] ++
         (if s.audioDevice then [ApuEvent.playBuffer] else [])) := by
  simp only [APU.flushFrame]
  cases had : s.audioDevice <;>
    simp [Run_audioDevice, had]

theorem Exec_flush (s : ApuState) (h10 : s.currentCycle + 1 = 10000) :
    APU.Exec s = APU.flushFrame { s with currentCycle := s.currentCycle + 1 } := by
  simp only [APU.Exec]
  rw [if_pos]
  exact h10

theorem Exec_run (s : ApuState) (h10 : s.currentCycle + 1 ≠ 10000)
    (hrun : APU.NeedToRun { s with currentCycle := s.currentCycle + 1 }
      (s.currentCycle + 1) = true) :
    APU.Exec s = APU.Run { s with currentCycle := s.currentCycle + 1 } := by
  simp only [APU.Exec]
  rw [if_neg h10, if_pos hrun]

theorem Exec_skip (s : ApuState) (h10 : s.currentCycle + 1 ≠ 10000)
    (hrun : APU.NeedToRun { s with currentCycle := s.currentCycle + 1 }
      (s.currentCycle + 1) = false) :
    APU.Exec s = { s with currentCycle := s.currentCycle + 1 } := by
  simp only [APU.Exec]
  rw [if_neg h10, if_neg (by simp [hrun])]

/-! ### The cycle-counter invariant -/

theorem Run_inv (s : ApuState) (h : ApuInv s) : ApuInv (APU.Run s) :=
  ⟨Nat.le_of_eq (Run_complete s h.2.2 h.1),
   by rw [Run_currentCycle]; exact h.2.1,
   Run_wf s h.2.2⟩

theorem ReadRAM_inv (addr : Nat) (s : ApuState) (h : ApuInv s) :
    ApuInv (APU.ReadRAM addr s).2 := by
  have h' := Run_inv s h
  refine ⟨?_, ?_, ?_⟩
  · rw [ReadRAM_snd_previousCycle, ReadRAM_snd_currentCycle]
    exact h'.1
  · rw [ReadRAM_snd_currentCycle]
    exact h'.2.1
  · rw [ReadRAM_snd_frameCounter]
    exact h'.2.2

theorem WriteRAM_inv (addr value : Nat) (s : ApuState) (h : ApuInv s) :
    ApuInv (APU.WriteRAM addr value s) := by
  have h' := Run_inv s h
  refine ⟨?_, ?_, ?_⟩
  · rw [WriteRAM_previousCycle, WriteRAM_currentCycle]
    exact h'.1
  · rw [WriteRAM_currentCycle]
    exact h'.2.1
  · rw [WriteRAM_frameCounter]
    exact h'.2.2

theorem SetNesModel_inv (m : NesModel) (force : Bool) (s : ApuState)
    (h : ApuInv s) : ApuInv (APU.SetNesModel m force s) := by
  have h' := Run_inv s h
  unfold APU.SetNesModel
  split
  · exact ⟨by simpa using h'.1, by simpa using h'.2.1, by simpa using h'.2.2⟩
  · exact h

theorem Reset_inv (soft : Bool) (s : ApuState) : ApuInv (APU.Reset soft s) := by
  refine ⟨?_, ?_, ?_⟩ <;> simp [APU.Reset, ApuFrameCounter.reset]

theorem Exec_inv (s : ApuState) (h : ApuInv s) : ApuInv (APU.Exec s) := by
  by_cases h10 : s.currentCycle + 1 = 10000
  · rw [Exec_flush s h10]
    refine ⟨?_, ?_, ?_⟩
    · rw [flushFrame_previousCycle, flushFrame_currentCycle]
    · rw [flushFrame_currentCycle]
      omega
    · rw [flushFrame_frameCounter]
      exact Run_wf _ h.2.2
  · by_cases hrun : APU.NeedToRun { s with currentCycle := s.currentCycle + 1 }
        (s.currentCycle + 1) = true
    · rw [Exec_run s h10 hrun]
      have hwf : 1 ≤ ({ s with currentCycle := s.currentCycle + 1 } :
          ApuState).frameCounter.cyclesUntilNextEvent := h.2.2
      have hle : ({ s with currentCycle := s.currentCycle + 1 } :
          ApuState).previousCycle ≤ ({ s with currentCycle := s.currentCycle + 1 } :
          ApuState).currentCycle := by
        show s.previousCycle ≤ s.currentCycle + 1
        exact Nat.le_succ_of_le h.1
      refine ⟨Nat.le_of_eq (Run_complete _ hwf hle), ?_, Run_wf _ hwf⟩
      rw [Run_currentCycle]
      show s.currentCycle + 1 < 10000
      have := h.2.1
      omega
    · rw [Exec_skip s h10 (by simpa using hrun)]
      refine ⟨Nat.le_succ_of_le h.1, ?_, h.2.2⟩
      show s.currentCycle + 1 < 10000
      have := h.2.1
      omega

theorem initState_inv : ApuInv initState := by
  refine ⟨Nat.le_refl 0, ?_, ?_⟩ <;> simp [initState, initFrameCounter]

/-- Every reachable state satisfies the cycle-counter invariant. -/
theorem reachable_inv {s : ApuState} (h : Reachable s) : ApuInv s := by
  induction h with
  | init => exact initState_inv
  | exec _ ih => exact Exec_inv _ ih
  | readReg addr _ ih => exact ReadRAM_inv addr _ ih
  | writeReg addr value _ ih => exact WriteRAM_inv addr value _ ih
  | setModel m force _ ih => exact SetNesModel_inv m force _ ih
  | reset soft _ => exact Reset_inv soft _
  | run _ ih => exact Run_inv _ ih

/-! ### Trace of one run-loop iteration -/

theorem RunStep_trace (s : ApuState) :
    (APU.RunStep s).trace =
      (fcRunOnce s (s.currentCycle - s.previousCycle)).2.trace ++
        [ApuEvent.channelRun ChannelId.square1 ((APU.RunStep s).previousCycle),
         ApuEvent.channelRun ChannelId.square2 ((APU.RunStep s).previousCycle),
         ApuEvent.channelRun ChannelId.noise ((APU.RunStep s).previousCycle),
         ApuEvent.channelRun ChannelId.triangle ((APU.RunStep s).previousCycle),
         ApuEvent.channelRun ChannelId.dmc ((APU.RunStep s).previousCycle)] := by
  rw [RunStep_previousCycle]
  simp only [APU.RunStep]
  simp [runChannel_trace, runChannel_previousCycle, fcRunOnce_previousCycle]

/-! ### Claim theorems -/

/-- C1: for every reachable state, immediately after `Run` returns, and
immediately after a $4015 read (`ReadRAM`) or a $4015 write (`WriteRAM`),
`previousCycle` equals `currentCycle`. -/
theorem apu_C1 (s : ApuState) (addr value : Nat) (h : Reachable s) :
    (APU.Run s).previousCycle = (APU.Run s).currentCycle ∧
    (APU.ReadRAM addr s).2.previousCycle = (APU.ReadRAM addr s).2.currentCycle ∧
    (APU.WriteRAM addr value s).previousCycle =
      (APU.WriteRAM addr value s).currentCycle := by
  have hi := reachable_inv h
  refine ⟨Run_complete s hi.2.2 hi.1, ?_, ?_⟩
  · rw [ReadRAM_snd_previousCycle, ReadRAM_snd_currentCycle]
    exact Run_complete s hi.2.2 hi.1
  · rw [WriteRAM_previousCycle, WriteRAM_currentCycle]
    exact Run_complete s hi.2.2 hi.1

/-- Witness for C1 at the power-on state and address $4015. -/
theorem apu_C1_witness :
    (APU.Run initState).previousCycle = (APU.Run initState).currentCycle ∧
    (APU.ReadRAM 0x4015 initState).2.previousCycle =
      (APU.ReadRAM 0x4015 initState).2.currentCycle ∧
    (APU.WriteRAM 0x4015 0 initState).previousCycle =
      (APU.WriteRAM 0x4015 0 initState).currentCycle :=
  apu_C1 initState 0x4015 0 Reachable.init

/-- C2: in every iteration of the run loop (entered while
`previousCycle < currentCycle`), the frame counter consumes at most the
cycles remaining at that iteration, `previousCycle` advances by exactly the
amount the frame counter reports, and the channels are then advanced to the
new `previousCycle` in the fixed order square1, square2, noise, triangle,
DMC. -/
theorem apu_C2 (s : ApuState) (fuel : Nat) (h : s.previousCycle < s.currentCycle) :
    (fcRunOnce s (s.currentCycle - s.previousCycle)).1 ≤
      s.currentCycle - s.previousCycle ∧
    APU.RunLoop (fuel + 1) s = APU.RunLoop fuel (APU.RunStep s) ∧
    (APU.RunStep s).previousCycle =
      s.previousCycle + (fcRunOnce s (s.currentCycle - s.previousCycle)).1 ∧
    (APU.RunStep s).trace =
      (fcRunOnce s (s.currentCycle - s.previousCycle)).2.trace ++
        [ApuEvent.channelRun ChannelId.square1 ((APU.RunStep s).previousCycle),
         ApuEvent.channelRun ChannelId.square2 ((APU.RunStep s).previousCycle),
         ApuEvent.channelRun ChannelId.noise ((APU.RunStep s).previousCycle),
         ApuEvent.channelRun ChannelId.triangle ((APU.RunStep s).previousCycle),
         ApuEvent.channelRun ChannelId.dmc ((APU.RunStep s).previousCycle)] := by
  refine ⟨fcRunOnce_fst_le s _, ?_, RunStep_previousCycle s, RunStep_trace s⟩
  simp only [APU.RunLoop]
  rw [if_pos h]

/-- Witness for C2 at a state with three pending cycles. -/
theorem apu_C2_witness :
    (fcRunOnce sampleState (sampleState.currentCycle - sampleState.previousCycle)).1 ≤
      sampleState.currentCycle - sampleState.previousCycle ∧
    APU.RunLoop (0 + 1) sampleState = APU.RunLoop 0 (APU.RunStep sampleState) ∧
    (APU.RunStep sampleState).previousCycle =
      sampleState.previousCycle +
        (fcRunOnce sampleState
          (sampleState.currentCycle - sampleState.previousCycle)).1 ∧
    (APU.RunStep sampleState).trace =
      (fcRunOnce sampleState
          (sampleState.currentCycle - sampleState.previousCycle)).2.trace ++
        [ApuEvent.channelRun ChannelId.square1 ((APU.RunStep sampleState).previousCycle),
         ApuEvent.channelRun ChannelId.square2 ((APU.RunStep sampleState).previousCycle),
         ApuEvent.channelRun ChannelId.noise ((APU.RunStep sampleState).previousCycle),
         ApuEvent.channelRun ChannelId.triangle ((APU.RunStep sampleState).previousCycle),
         ApuEvent.channelRun ChannelId.dmc ((APU.RunStep sampleState).previousCycle)] :=
  apu_C2 sampleState 0 (by decide)

/-- C6: every state reachable from power-on by any sequence of APU
operations satisfies `0 ≤ previousCycle ≤ currentCycle ≤ 10000`. -/
theorem apu_C6 (s : ApuState) (h : Reachable s) :
    0 ≤ s.previousCycle ∧ s.previousCycle ≤ s.currentCycle ∧
      s.currentCycle ≤ 10000 :=
  ⟨Nat.zero_le _, (reachable_inv h).1, Nat.le_of_lt (reachable_inv h).2.1⟩

/-- Witness for C6 at the power-on state. -/
theorem apu_C6_witness :
    0 ≤ initState.previousCycle ∧ initState.previousCycle ≤ initState.currentCycle ∧
      initState.currentCycle ≤ 10000 :=
  apu_C6 initState Reachable.init

/-- C7: every frame-counter event clocks the envelopes of square1, square2
and noise and the triangle's linear counter; a half-frame event additionally
clocks the four length counters and both sweeps; and no frame-counter event
touches the DMC channel (its state is unchanged and no logged event names
it). -/
theorem apu_C7 (t : FrameType) (s : ApuState) :
    (APU.FrameCounterTick t s).trace = s.trace ++ tickEvents t ∧
    (APU.FrameCounterTick t s).dmc = s.dmc ∧
    ((tickEvents t).all fun e => e.channelOf != some ChannelId.dmc) = true := by
  refine ⟨?_, FrameCounterTick_dmc t s, ?_⟩
  · cases t <;> simp [APU.FrameCounterTick, tickEvents]
  · cases t <;> decide

/-- C10: calling `SetNesModel` with the currently configured model and
`forceInit = false` leaves the APU state completely unchanged. -/
theorem apu_C10 (s : ApuState) : APU.SetNesModel s.nesModel false s = s := by
  unfold APU.SetNesModel
  rw [if_neg]
  simp

/-! ### Status byte decomposition -/

theorem statusByte_testBit (b0 b1 b2 b3 b4 b6 b7 : Bool) :
    (statusByte b0 b1 b2 b3 b4 b6 b7).testBit 0 = b0 ∧
    (statusByte b0 b1 b2 b3 b4 b6 b7).testBit 1 = b1 ∧
    (statusByte b0 b1 b2 b3 b4 b6 b7).testBit 2 = b2 ∧
    (statusByte b0 b1 b2 b3 b4 b6 b7).testBit 3 = b3 ∧
    (statusByte b0 b1 b2 b3 b4 b6 b7).testBit 4 = b4 ∧
    (statusByte b0 b1 b2 b3 b4 b6 b7).testBit 5 = false ∧
    (statusByte b0 b1 b2 b3 b4 b6 b7).testBit 6 = b6 ∧
    (statusByte b0 b1 b2 b3 b4 b6 b7).testBit 7 = b7 := by
  revert b0 b1 b2 b3 b4 b6 b7
  decide

/-- C3: the $4015 read first runs the APU to the current cycle; the returned
byte has bits 0..4 equal to the length-counter statuses of square1, square2,
triangle, noise and the DMC bytes-remaining status, bit 5 equal to 0, bit 6
equal to the frame-counter IRQ flag and bit 7 equal to the DMC IRQ flag; and
its only side effect beyond `Run` is clearing the frame-counter IRQ flag
(logged), leaving the DMC IRQ flag unchanged. -/
theorem apu_C3 (addr : Nat) (s : ApuState) :
    (APU.ReadRAM addr s).1.testBit 0 = (APU.Run s).square1.getStatus ∧
    (APU.ReadRAM addr s).1.testBit 1 = (APU.Run s).square2.getStatus ∧
    (APU.ReadRAM addr s).1.testBit 2 = (APU.Run s).triangle.getStatus ∧
    (APU.ReadRAM addr s).1.testBit 3 = (APU.Run s).noise.getStatus ∧
    (APU.ReadRAM addr s).1.testBit 4 = (APU.Run s).dmc.getStatus ∧
    (APU.ReadRAM addr s).1.testBit 5 = false ∧
    (APU.ReadRAM addr s).1.testBit 6 = (APU.Run s).frameIrq ∧
    (APU.ReadRAM addr s).1.testBit 7 = (APU.Run s).dmcIrq ∧
    (APU.ReadRAM addr s).2 =
      logEvent ApuEvent.clearFrameIrq { APU.Run s with frameIrq := false } ∧
    (APU.ReadRAM addr s).2.frameIrq = false ∧
    (APU.ReadRAM addr s).2.dmcIrq = (APU.Run s).dmcIrq := by
  have h := statusByte_testBit (APU.Run s).square1.getStatus
      (APU.Run s).square2.getStatus (APU.Run s).triangle.getStatus
      (APU.Run s).noise.getStatus (APU.Run s).dmc.getStatus
      (APU.Run s).frameIrq (APU.Run s).dmcIrq
  exact ⟨h.1, h.2.1, h.2.2.1, h.2.2.2.1, h.2.2.2.2.1, h.2.2.2.2.2.1,
    h.2.2.2.2.2.2.1, h.2.2.2.2.2.2.2, rfl, rfl, rfl⟩

/-! ### Enable masks -/

theorem lengthSetEnabled_enabled (f : Bool) (c : LengthChannelState) :
    (c.setEnabled f).enabled = f := by
  cases f <;> simp [LengthChannelState.setEnabled]

theorem dmcSetEnabled_enabled (f : Bool) (d : DmcState) :
    (d.setEnabled f).enabled = f := by
  cases f <;> simp [DmcState.setEnabled, apply_ite]

theorem maskTest_eq (v i : Nat) :
    ((v &&& 2 ^ i) == 2 ^ i) = ((v &&& 2 ^ i) != 0) := by
  have hp : (2 : Nat) ^ i ≠ 0 := by positivity
  rw [Nat.and_two_pow]
  cases v.testBit i <;> simp [hp]
  omega

theorem maskTest1 (v : Nat) : ((v &&& 1) == 1) = ((v &&& 1) != 0) := by
  have h := maskTest_eq v 0
  rwa [pow_zero] at h

theorem maskTest2 (v : Nat) : ((v &&& 2) == 2) = ((v &&& 2) != 0) := by
  have h := maskTest_eq v 1
  rwa [pow_one] at h

theorem maskTest4 (v : Nat) : ((v &&& 4) == 4) = ((v &&& 4) != 0) := by
  have h := maskTest_eq v 2
  rwa [show (2 : Nat) ^ 2 = 4 from by norm_num] at h

theorem maskTest8 (v : Nat) : ((v &&& 8) == 8) = ((v &&& 8) != 0) := by
  have h := maskTest_eq v 3
  rwa [show (2 : Nat) ^ 3 = 8 from by norm_num] at h

theorem maskTest16 (v : Nat) : ((v &&& 16) == 16) = ((v &&& 16) != 0) := by
  have h := maskTest_eq v 4
  rwa [show (2 : Nat) ^ 4 = 16 from by norm_num] at h

/-- C4: the $4015 write first runs the APU to the current cycle, then clears
the DMC IRQ flag strictly before applying any enable bit (visible in the
logged order), and sets each channel's enabled flag to `(v & mask) != 0` with
masks 0x01 (square1), 0x02 (square2), 0x04 (triangle), 0x08 (noise),
0x10 (DMC). -/
theorem apu_C4 (addr value : Nat) (s : ApuState) :
    (APU.WriteRAM addr value s).square1.enabled = ((value &&& 0x01) != 0) ∧
    (APU.WriteRAM addr value s).square2.enabled = ((value &&& 0x02) != 0) ∧
    (APU.WriteRAM addr value s).triangle.enabled = ((value &&& 0x04) != 0) ∧
    (APU.WriteRAM addr value s).noise.enabled = ((value &&& 0x08) != 0) ∧
    (APU.WriteRAM addr value s).dmc.enabled = ((value &&& 0x10) != 0) ∧
    (APU.WriteRAM addr value s).dmcIrq = false ∧
    (APU.WriteRAM addr value s).trace =
      (APU.Run s).trace ++
        [ApuEvent.clearDmcIrq,
         ApuEvent.setEnabled ChannelId.square1 ((value &&& 0x01) != 0),
         ApuEvent.setEnabled ChannelId.square2 ((value &&& 0x02) != 0),
         ApuEvent.setEnabled ChannelId.triangle ((value &&& 0x04) != 0),
         ApuEvent.setEnabled ChannelId.noise ((value &&& 0x08) != 0),
         ApuEvent.setEnabled ChannelId.dmc ((value &&& 0x10) != 0)] := by
  simp [APU.WriteRAM, lengthSetEnabled_enabled,
    dmcSetEnabled_enabled, maskTest1, maskTest2, maskTest4, maskTest8,
    maskTest16]

/-- C8: for every state and cycle index (not yet wrapped around the 32-bit
cycle subtraction), `NeedToRun` returns true exactly when a length counter
has pending work, or the frame-counter IRQ would fire within
`currentCycle - previousCycle` cycles, or the DMC IRQ would fire within that
window. -/
theorem apu_C8 (s : ApuState) (c : Nat) (h1 : s.previousCycle ≤ c)
    (h2 : c - s.previousCycle < 2 ^ 32) :
    APU.NeedToRun s c =
      (s.square1.reloadPending || s.square2.reloadPending ||
        s.triangle.reloadPending || s.noise.reloadPending ||
       s.frameCounter.irqPending (c - s.previousCycle) ||
       s.dmc.irqPending (c - s.previousCycle)) := by
  have e32 : (2 : Nat) ^ 32 = 4294967296 := by norm_num
  have hmod : (c + 2 ^ 32 - s.previousCycle) % 2 ^ 32 = c - s.previousCycle := by
    rw [e32] at h2 ⊢
    omega
  simp only [APU.NeedToRun, hmod]
  cases hlc : (s.square1.reloadPending || s.square2.reloadPending ||
      s.triangle.reloadPending || s.noise.reloadPending) <;>
    cases hfc : s.frameCounter.irqPending (c - s.previousCycle) <;>
      cases hdmc : s.dmc.irqPending (c - s.previousCycle) <;>
        simp_all

/-- C9: switching to a different model (or forcing the init) first drains
pending work with `Run` — every configuration event follows the run trace —
and then updates the model field, the accumulator clock rate, every
channel's model and the frame counter's model. -/
theorem apu_C9 (m : NesModel) (force : Bool) (s : ApuState)
    (h : s.nesModel ≠ m ∨ force = true) :
    (APU.SetNesModel m force s).nesModel = m ∧
    (APU.SetNesModel m force s).frameCounter =
      { (APU.Run s).frameCounter with nesModel := m } ∧
    (APU.SetNesModel m force s).previousCycle = (APU.Run s).previousCycle ∧
    (APU.SetNesModel m force s).currentCycle = s.currentCycle ∧
    (APU.SetNesModel m force s).trace =
      (APU.Run s).trace ++
        [ApuEvent.setClockRate m,
         ApuEvent.setChannelModel ChannelId.square1 m,
         ApuEvent.setChannelModel ChannelId.square2 m,
         ApuEvent.setChannelModel ChannelId.triangle m,
         ApuEvent.setChannelModel ChannelId.noise m,
         ApuEvent.setChannelModel ChannelId.dmc m,
         ApuEvent.setFrameCounterModel m] := by
  have hc : (s.nesModel != m || force) = true := by
    rcases h with h | h
    · simp [bne_iff_ne, h]
    · simp [h]
  unfold APU.SetNesModel
  rw [if_pos hc]
  refine ⟨by simp, by simp, by simp, ?_, by simp⟩
  simp [Run_currentCycle]

/-- C5: each `Exec` call bumps `currentCycle` by exactly one; when the new
cycle reaches the frame cycle limit 10000 it flushes the audio frame (run to
the boundary, end-of-frame hook on every channel, finalize the accumulator
at the limit, read up to `SamplesPerFrame` samples and push them to the
attached audio device, rebase both counters to 0); otherwise it calls `Run`
exactly when `NeedToRun` of the new cycle returns true. -/
theorem apu_C5 (s : ApuState) :
    ((APU.Exec s).currentCycle =
      if s.currentCycle + 1 = 10000 then 0 else s.currentCycle + 1) ∧
    (s.currentCycle + 1 = 10000 →
      (APU.Exec s).previousCycle = 0 ∧
      (APU.Exec s).trace =
        (APU.Run { s with currentCycle := s.currentCycle + 1 }).trace ++
          ([ApuEvent.endFrame ChannelId.square1, ApuEvent.endFrame ChannelId.square2,
            ApuEvent.endFrame ChannelId.triangle, ApuEvent.endFrame ChannelId.noise,
            ApuEvent.endFrame ChannelId.dmc, ApuEvent.blipEndFrame 10000,
            ApuEvent.readSamples SamplesPerFrame] ++
           (if s.audioDevice then [ApuEvent.playBuffer] else []))) ∧
    (s.currentCycle + 1 ≠ 10000 →
      APU.NeedToRun { s with currentCycle := s.currentCycle + 1 }
        (s.currentCycle + 1) = true →
      APU.Exec s = APU.Run { s with currentCycle := s.currentCycle + 1 }) ∧
    (s.currentCycle + 1 ≠ 10000 →
      APU.NeedToRun { s with currentCycle := s.currentCycle + 1 }
        (s.currentCycle + 1) = false →
      APU.Exec s = { s with currentCycle := s.currentCycle + 1 }) := by
  refine ⟨?_, ?_, Exec_run s, Exec_skip s⟩
  · by_cases h10 : s.currentCycle + 1 = 10000
    · rw [if_pos h10, Exec_flush s h10, flushFrame_currentCycle]
    · rw [if_neg h10]
      by_cases hrun : APU.NeedToRun { s with currentCycle := s.currentCycle + 1 }
          (s.currentCycle + 1) = true
      · rw [Exec_run s h10 hrun, Run_currentCycle]
      · rw [Exec_skip s h10 (by simpa using hrun)]
  · intro h10
    have hcc : (APU.Run { s with currentCycle := s.currentCycle + 1
        }).currentCycle = 10000 := by
      rw [Run_currentCycle]
      simpa using h10
    refine ⟨?_, ?_⟩
    · rw [Exec_flush s h10, flushFrame_previousCycle]
    · rw [Exec_flush s h10, flushFrame_trace, hcc]

/-- Witness for C5 at the power-on state: the next cycle is not the frame
boundary and `NeedToRun` is false, so `Exec` only bumps the cycle counter. -/
theorem apu_C5_witness :
    initState.currentCycle + 1 ≠ 10000 ∧
    APU.NeedToRun { initState with currentCycle := initState.currentCycle + 1 }
      (initState.currentCycle + 1) = false ∧
    APU.Exec initState = { initState with currentCycle := initState.currentCycle + 1 } :=
  ⟨by decide, by decide, (apu_C5 initState).2.2.2 (by decide) (by decide)⟩

/-- Witness for C8 at the power-on state and cycle index 0. -/
theorem apu_C8_witness :
    initState.previousCycle ≤ 0 ∧ 0 - initState.previousCycle < 2 ^ 32 ∧
    APU.NeedToRun initState 0 =
      (initState.square1.reloadPending || initState.square2.reloadPending ||
        initState.triangle.reloadPending || initState.noise.reloadPending ||
       initState.frameCounter.irqPending (0 - initState.previousCycle) ||
       initState.dmc.irqPending (0 - initState.previousCycle)) :=
  ⟨by decide, by decide, apu_C8 initState 0 (by decide) (by decide)⟩

/-- Witness for C9: switching the power-on NTSC state to PAL. -/
theorem apu_C9_witness :
    (initState.nesModel ≠ NesModel.PAL ∨ false = true) ∧
    ((APU.SetNesModel NesModel.PAL false initState).nesModel = NesModel.PAL ∧
     (APU.SetNesModel NesModel.PAL false initState).frameCounter =
       { (APU.Run initState).frameCounter with nesModel := NesModel.PAL } ∧
     (APU.SetNesModel NesModel.PAL false initState).previousCycle =
       (APU.Run initState).previousCycle ∧
     (APU.SetNesModel NesModel.PAL false initState).currentCycle =
       initState.currentCycle ∧
     (APU.SetNesModel NesModel.PAL false initState).trace =
       (APU.Run initState).trace ++
         [ApuEvent.setClockRate NesModel.PAL,
          ApuEvent.setChannelModel ChannelId.square1 NesModel.PAL,
          ApuEvent.setChannelModel ChannelId.square2 NesModel.PAL,
          ApuEvent.setChannelModel ChannelId.triangle NesModel.PAL,
          ApuEvent.setChannelModel ChannelId.noise NesModel.PAL,
          ApuEvent.setChannelModel ChannelId.dmc NesModel.PAL,
          ApuEvent.setFrameCounterModel NesModel.PAL]) :=
  ⟨Or.inl (by decide), apu_C9 NesModel.PAL false initState (Or.inl (by decide))⟩
